import Mathlib

/-!
Verification of the MFRC522 RFID driver
(src/Raspi/Freenove_RFID_Starter_Kit_for_Raspberry_Pi/Code/C_Code/24.1.1_RFID).

The driver talks to the chip exclusively through register reads and writes.
In this shallow embedding each operation is a pure function of an environment
that records the value the chip returns for every register read the C code
performs, in the order the code performs them; register writes and delays have
no observable effect on the values the code computes, so they are not recorded.
Machine integers are modelled as Nat with explicit mod: every uint8 register
read is taken mod 256, and the uint16 backLen store is taken mod 65536.
-/

set_option autoImplicit false
set_option maxRecDepth 10000

/-- Status code MI_OK from mfrc522.h (the C status type is int). -/
def MI_OK : Int := 0

/-- Status code MI_NOTAGERR from mfrc522.h. -/
def MI_NOTAGERR : Int := -1

/-- Status code MI_ERR from mfrc522.h. -/
def MI_ERR : Int := -2

/-- Chip command word PCD_AUTHENT from mfrc522.h. -/
def PCD_AUTHENT : Nat := 0x0E

/-- Chip command word PCD_TRANSCEIVE from mfrc522.h. -/
def PCD_TRANSCEIVE : Nat := 0x0C

/-- Card command PICC_ANTICOLL from mfrc522.h. -/
def PICC_ANTICOLL : Nat := 0x93

/-- Card command PICC_SElECTTAG from mfrc522.h (spelling as in the source). -/
def PICC_SElECTTAG : Nat := 0x93

/-- Card command PICC_WRITE from mfrc522.h. -/
def PICC_WRITE : Nat := 0xA0

/-- FIFO capacity MFRC522_MAX_LEN from mfrc522.h. -/
def MFRC522_MAX_LEN : Nat := 16

/-- Environment of one MFRC522_ToCard transaction: the values the chip returns
for the register reads the function performs. irqTrace k is the value of the
k-th read of COMM_IRQ inside the poll loop; errorReg, fifoLevel and controlReg
are the values read from the ERROR, FIFO_LEVEL and CONTROL registers after the
loop; fifoData j is the j-th byte drained from FIFO_DATA. -/
structure ChipEnv where
  irqTrace : Nat → Nat
  errorReg : Nat
  fifoLevel : Nat
  controlReg : Nat
  fifoData : Nat → Nat

/-- Observable outcome of MFRC522_ToCard: the returned status, the value stored
through the backLen out-parameter (none when the code never writes it), and the
bytes stored into the backData buffer (empty when the code writes none). -/
structure ToCardResult where
  status : Int
  backLen : Option Nat
  backData : List Nat
  deriving DecidableEq

/-- Interrupt-enable mask selected by command kind (mfrc522.c lines 164-177). -/
def irqEnOf (cmd : Nat) : Nat :=
  if cmd = PCD_AUTHENT then 0x12 else if cmd = PCD_TRANSCEIVE then 0x77 else 0x00

/-- Wait mask selected by command kind (mfrc522.c lines 164-177). -/
def waitIRqOf (cmd : Nat) : Nat :=
  if cmd = PCD_AUTHENT then 0x10 else if cmd = PCD_TRANSCEIVE then 0x30 else 0x00

/-- The bounded COMM_IRQ poll loop of MFRC522_ToCard (mfrc522.c lines 197-208),
a do-while loop: read n from COMM_IRQ, decrement i, continue while i is nonzero
and n has neither bit 0 (TimerIRq) nor a waitIRq bit set. The first argument of
the recursion is the counter value at loop entry (2000 at the top call), the
second the index of the next COMM_IRQ read. Returns the pair of the counter
value after the loop and the last value read. -/
def pollFrom (trace : Nat → Nat) (w : Nat) : Nat → Nat → Nat × Nat
  | 0, k => (0, trace k % 256)
  | i + 1, k =>
    if i ≠ 0 ∧ (trace k % 256) &&& 0x01 = 0 ∧ (trace k % 256) &&& w = 0 then
      pollFrom trace w i (k + 1)
    else
      (i, trace k % 256)

/-- Status classification after an in-budget loop exit with clean error bits
(mfrc522.c lines 215-219): MI_NOTAGERR when the last irq value, masked with the
interrupt-enable mask of the command, has bit 0 set; MI_OK otherwise. -/
def statusOf (cmd n : Nat) : Int :=
  if n &&& irqEnOf cmd &&& 0x01 ≠ 0 then MI_NOTAGERR else MI_OK

/-- Received bit count stored through backLen (mfrc522.c lines 222-228).
fifoLevel and the low three control bits are uint8 reads; the C expression
(n - 1) * 8 + lastBits is computed in int and stored into uint16, hence the
mod 65536; adding 65528 realises the subtraction of 8 without leaving Nat. -/
def backLenOf (env : ChipEnv) : Nat :=
  if env.controlReg % 256 &&& 0x07 ≠ 0 then
    (env.fifoLevel % 256 * 8 + (env.controlReg % 256 &&& 0x07) + 65528) % 65536
  else
    env.fifoLevel % 256 * 8

/-- Number of bytes drained from the FIFO (mfrc522.c lines 230-235): the read
FIFO level with 0 replaced by 1, then clamped to MFRC522_MAX_LEN. -/
def drainOf (env : ChipEnv) : Nat :=
  if (if env.fifoLevel % 256 = 0 then 1 else env.fifoLevel % 256) > MFRC522_MAX_LEN then
    MFRC522_MAX_LEN
  else
    if env.fifoLevel % 256 = 0 then 1 else env.fifoLevel % 256

/-- The FIFO drain of the PCD_TRANSCEIVE branch (mfrc522.c lines 221-241):
backLen receives the bit count, backData the drained bytes. -/
def transceiveData (env : ChipEnv) (st : Int) : ToCardResult :=
  ⟨st, some (backLenOf env), (List.range (drainOf env)).map (fun j => env.fifoData j % 256)⟩

/-- Shallow embedding of MFRC522_ToCard (mfrc522.c lines 155-248). After the
poll loop: if the counter reached 0 the initial MI_ERR stands and nothing is
written; else if any ERROR bit under mask 0x1B is set the result is MI_ERR with
nothing written; else the status is classified by statusOf, and for
PCD_TRANSCEIVE the bit count and the FIFO bytes are written out. -/
def MFRC522_ToCard (cmd : Nat) (env : ChipEnv) : ToCardResult :=
  if (pollFrom env.irqTrace (waitIRqOf cmd) 2000 0).1 ≠ 0 then
    if env.errorReg % 256 &&& 0x1B = 0 then
      if cmd = PCD_TRANSCEIVE then
        transceiveData env (statusOf cmd (pollFrom env.irqTrace (waitIRqOf cmd) 2000 0).2)
      else
        ⟨statusOf cmd (pollFrom env.irqTrace (waitIRqOf cmd) 2000 0).2, none, []⟩
    else
      ⟨MI_ERR, none, []⟩
  else
    ⟨MI_ERR, none, []⟩

/-- Shallow embedding of MFRC522_Request (mfrc522.c lines 136-153): propagate a
non-OK transceive status; with MI_OK require exactly 0x10 received bits. -/
def MFRC522_Request (env : ChipEnv) : Int :=
  if (MFRC522_ToCard PCD_TRANSCEIVE env).status ≠ MI_OK then
    (MFRC522_ToCard PCD_TRANSCEIVE env).status
  else if (MFRC522_ToCard PCD_TRANSCEIVE env).backLen ≠ some 0x10 then MI_ERR
  else MI_OK

/-- Content of the serNum buffer after the transceive inside MFRC522_Anticoll:
the bytes drained by the transceive overlay the command frame bytes 0x93, 0x20
written at indices 0 and 1 before the call, and the untouched caller bytes. -/
def anticollBuf (env : ChipEnv) (callerBuf : Nat → Nat) (i : Nat) : Nat :=
  if i < (MFRC522_ToCard PCD_TRANSCEIVE env).backData.length then
    (MFRC522_ToCard PCD_TRANSCEIVE env).backData.getD i 0
  else if i = 0 then PICC_ANTICOLL
  else if i = 1 then 0x20
  else callerBuf i

/-- Shallow embedding of MFRC522_Anticoll (mfrc522.c lines 250-273): on MI_OK
from the transceive, compare the xor of bytes 0-3 of the buffer with byte 4 and
turn a mismatch into MI_ERR; otherwise propagate the transceive status. The
second component is the final content of the caller buffer serNum. -/
def MFRC522_Anticoll (env : ChipEnv) (callerBuf : Nat → Nat) : Int × (Nat → Nat) :=
  if (MFRC522_ToCard PCD_TRANSCEIVE env).status = MI_OK then
    (if (anticollBuf env callerBuf 0 ^^^ anticollBuf env callerBuf 1 ^^^
         anticollBuf env callerBuf 2 ^^^ anticollBuf env callerBuf 3) =
        anticollBuf env callerBuf 4 then MI_OK else MI_ERR,
     anticollBuf env callerBuf)
  else
    ((MFRC522_ToCard PCD_TRANSCEIVE env).status, anticollBuf env callerBuf)

/-- Environment of one MFRC522_CalculateCRC call: the successive DIV_IRQ reads
of the wait loop and the values of the two CRC result registers. -/
structure CrcEnv where
  divIrqTrace : Nat → Nat
  crcResultL : Nat
  crcResultM : Nat

/-- The DIV_IRQ wait loop of MFRC522_CalculateCRC (mfrc522.c lines 289-293),
returning the number of DIV_IRQ reads performed. The counter starts at 0xFF and
is decremented after every read; the loop continues while the counter is
nonzero and bit 0x04 (CRCIrq) of the read value is clear. -/
def crcPollReads (trace : Nat → Nat) : Nat → Nat → Nat
  | 0, k => k + 1
  | i + 1, k =>
    if i ≠ 0 ∧ (trace k % 256) &&& 0x04 = 0 then crcPollReads trace i (k + 1)
    else k + 1

/-- Shallow embedding of MFRC522_CalculateCRC (mfrc522.c lines 275-298): after
the bounded wait loop the two result registers are read unconditionally, the
low byte (CRC_RESULT_L, register 0x22) into output position 0 and the high byte
(CRC_RESULT_M, register 0x21) into output position 1, whether or not the CRCIrq
flag was ever observed. -/
def MFRC522_CalculateCRC (env : CrcEnv) : Nat × Nat :=
  let _i := crcPollReads env.divIrqTrace 0xFF 0
  (env.crcResultL % 256, env.crcResultM % 256)

/-- Shallow embedding of MFRC522_SelectTag (mfrc522.c lines 300-322): the size
returned is the first buffer byte (the first drained byte) when the transceive
returned MI_OK with exactly 0x18 received bits, and 0 in every other case.
Before the transceive, buffer index 0 holds PICC_SElECTTAG. -/
def MFRC522_SelectTag (env : ChipEnv) : Nat :=
  if (MFRC522_ToCard PCD_TRANSCEIVE env).status = MI_OK ∧
     (MFRC522_ToCard PCD_TRANSCEIVE env).backLen = some 0x18 then
    (MFRC522_ToCard PCD_TRANSCEIVE env).backData.headD PICC_SElECTTAG
  else 0

/-- Shallow embedding of MFRC522_Auth (mfrc522.c lines 324-348): transceive with
PCD_AUTHENT, then force MI_ERR unless the status is MI_OK and bit 3 of the
STATUS2 register (value status2, a uint8 read) is set. -/
def MFRC522_Auth (env : ChipEnv) (status2 : Nat) : Int :=
  if (MFRC522_ToCard PCD_AUTHENT env).status ≠ MI_OK ∨ (status2 % 256) &&& 0x08 = 0 then
    MI_ERR
  else (MFRC522_ToCard PCD_AUTHENT env).status

/-- Shallow embedding of MFRC522_Read (mfrc522.c lines 350-364): MI_ERR unless
the transceive returned MI_OK with exactly 0x90 received bits, in which case
the C function returns unLen, that is 0x90. -/
def MFRC522_Read (env : ChipEnv) : Int :=
  if (MFRC522_ToCard PCD_TRANSCEIVE env).status ≠ MI_OK ∨
     (MFRC522_ToCard PCD_TRANSCEIVE env).backLen ≠ some 0x90 then MI_ERR
  else 0x90

/-- Error exit of MFRC522_Write (mfrc522.c lines 397-403): when the last
transceive reported a 4 bit reply, the low nibble of the first reply byte
becomes the returned status; otherwise MI_ERR. -/
def writeError (recvBits b0 : Nat) : Int :=
  if recvBits = 4 then ((b0 &&& 0x0F : Nat) : Int) else MI_ERR

/-- Shallow embedding of MFRC522_Write (mfrc522.c lines 366-404), two
transceive phases each requiring MI_OK, a 4 bit reply and an 0x0A ack nibble.
garbage models the uninitialised stack value of recvBits that the error path
reads when the first transceive wrote neither backLen nor buff; wd0 is the
first byte of the caller data copied into buff before phase two, which is what
buff[0] holds on the error path if phase two drained nothing. Returns the
status and the list of transceive commands issued. -/
def MFRC522_Write (garbage wd0 : Nat) (env1 env2 : ChipEnv) : Int × List Nat :=
  if (MFRC522_ToCard PCD_TRANSCEIVE env1).status = MI_OK ∧
     (MFRC522_ToCard PCD_TRANSCEIVE env1).backLen.getD garbage = 4 ∧
     ((MFRC522_ToCard PCD_TRANSCEIVE env1).backData.headD PICC_WRITE) &&& 0x0F = 0x0A then
    if (MFRC522_ToCard PCD_TRANSCEIVE env2).status = MI_OK ∧
       (MFRC522_ToCard PCD_TRANSCEIVE env2).backLen.getD
         ((MFRC522_ToCard PCD_TRANSCEIVE env1).backLen.getD garbage) = 4 ∧
       ((MFRC522_ToCard PCD_TRANSCEIVE env2).backData.headD (wd0 % 256)) &&& 0x0F = 0x0A then
      (MI_OK, [PCD_TRANSCEIVE, PCD_TRANSCEIVE])
    else
      (writeError
        ((MFRC522_ToCard PCD_TRANSCEIVE env2).backLen.getD
          ((MFRC522_ToCard PCD_TRANSCEIVE env1).backLen.getD garbage))
        ((MFRC522_ToCard PCD_TRANSCEIVE env2).backData.headD (wd0 % 256)),
       [PCD_TRANSCEIVE, PCD_TRANSCEIVE])
  else
    (writeError ((MFRC522_ToCard PCD_TRANSCEIVE env1).backLen.getD garbage)
      ((MFRC522_ToCard PCD_TRANSCEIVE env1).backData.headD PICC_WRITE),
     [PCD_TRANSCEIVE])

/-- Shallow embedding of MFRC522_Debug_Write (mfrc522_debug.c lines 81-117):
authenticate first; on MI_OK reject block address 0 and addresses with
remainder 3 mod 4 with local error -1 before calling MFRC522_Write; otherwise
run the write and map MI_OK to 0. status2 is the STATUS2 value read inside
MFRC522_Auth. The second component is the trace of transceive commands issued,
in order. -/
def MFRC522_Debug_Write (envA : ChipEnv) (status2 blockaddr garbage wd0 : Nat)
    (envW1 envW2 : ChipEnv) : Int × List Nat :=
  if MFRC522_Auth envA status2 = MI_OK then
    if blockaddr = 0 ∨ blockaddr % 4 = 3 then (-1, [PCD_AUTHENT])
    else
      ((if (MFRC522_Write garbage wd0 envW1 envW2).1 = MI_OK then 0
        else (MFRC522_Write garbage wd0 envW1 envW2).1),
       PCD_AUTHENT :: (MFRC522_Write garbage wd0 envW1 envW2).2)
  else (-1, [PCD_AUTHENT])

/-- Shallow embedding of MFRC522_Debug_Clean (mfrc522_debug.c lines 46-80):
identical to MFRC522_Debug_Write with an all-zero 16 byte data buffer. -/
def MFRC522_Debug_Clean (envA : ChipEnv) (status2 blockaddr garbage : Nat)
    (envW1 envW2 : ChipEnv) : Int × List Nat :=
  if MFRC522_Auth envA status2 = MI_OK then
    if blockaddr = 0 ∨ blockaddr % 4 = 3 then (-1, [PCD_AUTHENT])
    else
      ((if (MFRC522_Write garbage 0 envW1 envW2).1 = MI_OK then 0
        else (MFRC522_Write garbage 0 envW1 envW2).1),
       PCD_AUTHENT :: (MFRC522_Write garbage 0 envW1 envW2).2)
  else (-1, [PCD_AUTHENT])

/-- Definition following the words of claim C1, for comparison with
MFRC522_ToCard: a generic error when the 2000 poll reads all lack both the
timer bit and the wait-mask bit of the command; otherwise a generic error when
any ERROR bit under mask 0x1B is set; otherwise NoTag when the interrupt value
on which the loop stopped, masked with the interrupt-enable mask of the
command, has bit 0 set; otherwise success. -/
def claimC1Status (cmd : Nat) (env : ChipEnv) : Int :=
  if ∀ k, k < 2000 → ((env.irqTrace k % 256) &&& 0x01 = 0 ∧
      (env.irqTrace k % 256) &&& waitIRqOf cmd = 0) then MI_ERR
  else if env.errorReg % 256 &&& 0x1B ≠ 0 then MI_ERR
  else if (pollFrom env.irqTrace (waitIRqOf cmd) 2000 0).2 &&& irqEnOf cmd &&& 0x01 ≠ 0 then
    MI_NOTAGERR
  else MI_OK

/-- Poll trace that shows no flag on the first 1999 COMM_IRQ reads and the
transceive wait-mask bit 0x30 on the 2000th read. -/
def lateFlagTrace (k : Nat) : Nat := if k = 1999 then 0x30 else 0

/-- Chip environment built on lateFlagTrace, with clean error bits. -/
def lateFlagEnv : ChipEnv := ⟨lateFlagTrace, 0, 3, 0, fun _ => 0⟩

/-- Chip environment whose poll trace never shows any flag. -/
def zeroEnv : ChipEnv := ⟨fun _ => 0, 0, 0, 0, fun _ => 0⟩

/-- Transceive environment that stops the poll loop on the first read with the
wait-mask bits and classifies as MI_OK, parametrised by the FIFO level, the
CONTROL value and the FIFO contents. -/
def okEnv (lvl ctrl : Nat) (dat : Nat → Nat) : ChipEnv :=
  ⟨fun _ => 0x30, 0, lvl, ctrl, dat⟩

/-- Transceive environment that stops the poll loop on the first read with only
the timer bit: classified MI_NOTAGERR for PCD_TRANSCEIVE. -/
def noTagEnv : ChipEnv := ⟨fun _ => 0x01, 0, 1, 0, fun _ => 0⟩

/-- Transceive environment that stops the poll loop on the first read but shows
monitored ERROR bits: classified MI_ERR. -/
def chipErrEnv : ChipEnv := ⟨fun _ => 0x01, 0x1B, 1, 0, fun _ => 0⟩

/-- Authenticate environment that stops the poll loop on the first read with
the authenticate wait bit 0x10 and clean error bits: MFRC522_ToCard PCD_AUTHENT
returns MI_OK on it. -/
def authOkEnv : ChipEnv := ⟨fun _ => 0x10, 0, 0, 0, fun _ => 0⟩

/-- Transceive environment for a write ack phase: MI_OK, a 4 bit reply
(fifoLevel 1, lastBits 4) and first reply byte 0x10, whose ack nibble is 0. -/
def wAckFailEnv : ChipEnv := ⟨fun _ => 0x30, 0, 1, 4, fun _ => 0x10⟩

theorem pollFrom_step_pos (trace : Nat → Nat) (w m k : Nat)
    (h : m ≠ 0 ∧ (trace k % 256) &&& 0x01 = 0 ∧ (trace k % 256) &&& w = 0) :
    pollFrom trace w (m + 1) k = pollFrom trace w m (k + 1) := by
  simp only [pollFrom]
  rw [if_pos h]

theorem pollFrom_step_neg (trace : Nat → Nat) (w m k : Nat)
    (h : ¬(m ≠ 0 ∧ (trace k % 256) &&& 0x01 = 0 ∧ (trace k % 256) &&& w = 0)) :
    pollFrom trace w (m + 1) k = (m, trace k % 256) := by
  simp only [pollFrom]
  rw [if_neg h]

theorem pollFrom_zero_iff (trace : Nat → Nat) (w : Nat) :
    ∀ i k, ((pollFrom trace w (i + 1) k).1 = 0 ↔
      ∀ j, j < i → ((trace (k + j) % 256) &&& 0x01 = 0 ∧ (trace (k + j) % 256) &&& w = 0)) := by
  intro i
  induction i with
  | zero =>
    intro k
    rw [pollFrom_step_neg trace w 0 k (by simp)]
    simp
  | succ m ih =>
    intro k
    by_cases hc : (trace k % 256) &&& 0x01 = 0 ∧ (trace k % 256) &&& w = 0
    · rw [pollFrom_step_pos trace w (m + 1) k ⟨by omega, hc⟩, ih (k + 1)]
      constructor
      · intro h j hj
        cases j with
        | zero => simpa using hc
        | succ j2 =>
          have h2 := h j2 (by omega)
          have e : k + 1 + j2 = k + (j2 + 1) := by omega
          rwa [e] at h2
      · intro h j hj
        have h2 := h (j + 1) (by omega)
        have e : k + (j + 1) = k + 1 + j := by omega
        rwa [e] at h2
    · rw [pollFrom_step_neg trace w (m + 1) k (by tauto)]
      constructor
      · intro h
        omega
      · intro h
        exact absurd (h 0 (by omega)) (by simpa using hc)

theorem pollFrom_run (trace : Nat → Nat) (w : Nat) :
    ∀ i k, (∀ j, j < i → ((trace (k + j) % 256) &&& 0x01 = 0 ∧ (trace (k + j) % 256) &&& w = 0)) →
      pollFrom trace w (i + 1) k = (0, trace (k + i) % 256) := by
  intro i
  induction i with
  | zero =>
    intro k _
    rw [pollFrom_step_neg trace w 0 k (by simp)]
    simp
  | succ m ih =>
    intro k h
    have hc : (trace k % 256) &&& 0x01 = 0 ∧ (trace k % 256) &&& w = 0 := by
      simpa using h 0 (by omega)
    rw [pollFrom_step_pos trace w (m + 1) k ⟨by omega, hc⟩, ih (k + 1) ?rest]
    · have e : k + 1 + m = k + (m + 1) := by omega
      rw [e]
    · intro j hj
      have h2 := h (j + 1) (by omega)
      have e : k + (j + 1) = k + 1 + j := by omega
      rwa [e] at h2

theorem pollFrom_snd_lt (trace : Nat → Nat) (w : Nat) :
    ∀ i k, (pollFrom trace w i k).2 < 256 := by
  intro i
  induction i with
  | zero =>
    intro k
    simp only [pollFrom]
    exact Nat.mod_lt _ (by omega)
  | succ m ih =>
    intro k
    by_cases hc : m ≠ 0 ∧ (trace k % 256) &&& 0x01 = 0 ∧ (trace k % 256) &&& w = 0
    · rw [pollFrom_step_pos trace w m k hc]
      exact ih (k + 1)
    · rw [pollFrom_step_neg trace w m k hc]
      exact Nat.mod_lt _ (by omega)

theorem land_mask_byte_bound (m : Nat) : m % 256 &&& 0x07 ≤ 7 := by
  have h : ∀ v, v < 256 → v &&& 0x07 ≤ 7 := by decide
  exact h (m % 256) (Nat.mod_lt _ (by omega))

theorem statusOf_authent (n : Nat) (h : n < 256) : statusOf PCD_AUTHENT n = MI_OK := by
  have h2 : ∀ v, v < 256 → v &&& 0x12 &&& 0x01 = 0 := by decide
  simp only [statusOf, irqEnOf, if_pos rfl]
  rw [if_neg]
  simp [h2 n h]

theorem toCard_transceive_of_ok (env : ChipEnv)
    (h : (MFRC522_ToCard PCD_TRANSCEIVE env).status = MI_OK ∨
         (MFRC522_ToCard PCD_TRANSCEIVE env).status = MI_NOTAGERR) :
    MFRC522_ToCard PCD_TRANSCEIVE env =
      transceiveData env ((MFRC522_ToCard PCD_TRANSCEIVE env).status) := by
  by_cases h1 : (pollFrom env.irqTrace (waitIRqOf PCD_TRANSCEIVE) 2000 0).1 ≠ 0
  · by_cases h2 : env.errorReg % 256 &&& 0x1B = 0
    · unfold MFRC522_ToCard
      rw [if_pos h1, if_pos h2, if_pos (rfl : PCD_TRANSCEIVE = PCD_TRANSCEIVE)]
      rfl
    · exfalso
      simp only [MFRC522_ToCard, if_pos h1, if_neg h2] at h
      rcases h with h | h <;> exact absurd h (by decide)
  · exfalso
    simp only [MFRC522_ToCard, if_neg h1] at h
    rcases h with h | h <;> exact absurd h (by decide)

theorem drainOf_eq (env : ChipEnv) :
    drainOf env = min (max (env.fifoLevel % 256) 1) MFRC522_MAX_LEN := by
  unfold drainOf MFRC522_MAX_LEN
  by_cases h : env.fifoLevel % 256 = 0
  · rw [h]
    decide
  · simp only [if_neg h]
    split <;> omega

theorem one_le_drainOf (env : ChipEnv) : 1 ≤ drainOf env := by
  rw [drainOf_eq]
  unfold MFRC522_MAX_LEN
  omega

theorem headD_map_range (f : Nat → Nat) (d x : Nat) (h : 1 ≤ d) :
    ((List.range d).map f).headD x = f 0 := by
  obtain ⟨m, rfl⟩ : ∃ m, d = m + 1 := ⟨d - 1, by omega⟩
  rw [List.range_succ_eq_map]
  simp

theorem getD_map_range (f : Nat → Nat) (d i x : Nat) (h : i < d) :
    ((List.range d).map f).getD i x = f i := by
  rw [List.getD_eq_getElem?_getD, List.getElem?_map]
  simp [List.getElem?_range h]

theorem lateFlag_poll :
    pollFrom lateFlagEnv.irqTrace (waitIRqOf PCD_TRANSCEIVE) 2000 0 = (0, 0x30) := by
  show pollFrom lateFlagTrace 0x30 2000 0 = (0, 0x30)
  have hclear : ∀ j, j < 1999 →
      ((lateFlagTrace (0 + j) % 256) &&& 0x01 = 0 ∧ (lateFlagTrace (0 + j) % 256) &&& 0x30 = 0) := by
    intro j hj
    unfold lateFlagTrace
    rw [if_neg (by omega : ¬(0 + j = 1999))]
    decide
  have hrun := pollFrom_run lateFlagTrace 0x30 1999 0 hclear
  rw [show (2000 : Nat) = 1999 + 1 from rfl, hrun]
  norm_num [lateFlagTrace]

/-- Claim C1, counterexample: on lateFlagEnv the wait-mask bit is set on the
2000th poll read, so the budget is not exhausted, quote, without the timer
expired bit or the wait-mask bit being set, unquote, and the classification
rule of the claim proceeds to the error-register inspection and yields success;
but MFRC522_ToCard tests only whether the counter reached zero and returns a
generic error with no data written. -/
theorem toCard_classification_counterexample :
    claimC1Status PCD_TRANSCEIVE lateFlagEnv = MI_OK ∧
    MFRC522_ToCard PCD_TRANSCEIVE lateFlagEnv = ⟨MI_ERR, none, []⟩ := by
  constructor
  · unfold claimC1Status
    rw [if_neg, if_neg, if_neg]
    · rw [lateFlag_poll]
      decide
    · decide
    · intro hall
      exact absurd (hall 1999 (by omega)).2 (by decide)
  · unfold MFRC522_ToCard
    rw [if_neg (by rw [lateFlag_poll]; decide)]

/-- Claim C1 (amended): the poll counter reaches zero exactly when none of the
first 1999 COMM_IRQ reads shows the timer bit or the wait-mask bit of the
command, and in that case the result is a generic error with no data written,
even when the 2000th read shows such a bit; on an early loop exit, if any
ERROR-register bit under mask 0x1B is set the result is a generic error with no
data, otherwise the status is NoTag when the interrupt value on which the loop
stopped, masked with the interrupt-enable mask of the command, has bit 0 set,
and success otherwise. -/
theorem toCard_classification_amended (cmd : Nat) (env : ChipEnv) :
    ((pollFrom env.irqTrace (waitIRqOf cmd) 2000 0).1 = 0 ↔
      (∀ j, j < 1999 → ((env.irqTrace j % 256) &&& 0x01 = 0 ∧
        (env.irqTrace j % 256) &&& waitIRqOf cmd = 0))) ∧
    ((pollFrom env.irqTrace (waitIRqOf cmd) 2000 0).1 = 0 →
      MFRC522_ToCard cmd env = ⟨MI_ERR, none, []⟩) ∧
    ((pollFrom env.irqTrace (waitIRqOf cmd) 2000 0).1 ≠ 0 →
      env.errorReg % 256 &&& 0x1B ≠ 0 → MFRC522_ToCard cmd env = ⟨MI_ERR, none, []⟩) ∧
    ((pollFrom env.irqTrace (waitIRqOf cmd) 2000 0).1 ≠ 0 →
      env.errorReg % 256 &&& 0x1B = 0 →
      (MFRC522_ToCard cmd env).status =
        (if (pollFrom env.irqTrace (waitIRqOf cmd) 2000 0).2 &&& irqEnOf cmd &&& 0x01 ≠ 0
         then MI_NOTAGERR else MI_OK)) := by
  refine ⟨?_, ?_, ?_, ?_⟩
  · have h := pollFrom_zero_iff env.irqTrace (waitIRqOf cmd) 1999 0
    rw [show (1999 : Nat) + 1 = 2000 from rfl] at h
    simpa using h
  · intro h
    unfold MFRC522_ToCard
    rw [if_neg (by simp [h])]
  · intro h1 h2
    unfold MFRC522_ToCard
    rw [if_pos h1, if_neg h2]
  · intro h1 h2
    unfold MFRC522_ToCard
    rw [if_pos h1, if_pos h2]
    by_cases hc : cmd = PCD_TRANSCEIVE
    · rw [if_pos hc]
      rfl
    · rw [if_neg hc]
      rfl

/-- Claim C1 (amended), witness: the four branches of the amended
classification at concrete environments. -/
theorem toCard_classification_amended_witness :
    MFRC522_ToCard PCD_TRANSCEIVE zeroEnv = ⟨MI_ERR, none, []⟩ ∧
    MFRC522_ToCard PCD_TRANSCEIVE chipErrEnv = ⟨MI_ERR, none, []⟩ ∧
    (MFRC522_ToCard PCD_TRANSCEIVE (okEnv 3 0 (fun _ => 0))).status = MI_OK ∧
    (MFRC522_ToCard PCD_TRANSCEIVE noTagEnv).status = MI_NOTAGERR := by
  refine ⟨?_, ?_, ?_, ?_⟩
  · exact (toCard_classification_amended PCD_TRANSCEIVE zeroEnv).2.1
      ((toCard_classification_amended PCD_TRANSCEIVE zeroEnv).1.2
        (fun j hj => by
          show (0 : Nat) % 256 &&& 0x01 = 0 ∧ (0 : Nat) % 256 &&& waitIRqOf PCD_TRANSCEIVE = 0
          decide))
  · exact (toCard_classification_amended PCD_TRANSCEIVE chipErrEnv).2.2.1
      (by decide) (by decide)
  · rw [(toCard_classification_amended PCD_TRANSCEIVE (okEnv 3 0 (fun _ => 0))).2.2.2
      (by decide) (by decide)]
    decide
  · rw [(toCard_classification_amended PCD_TRANSCEIVE noTagEnv).2.2.2
      (by decide) (by decide)]
    decide

/-- Claim C9: the authenticate interrupt-enable mask 0x12 has bit 0 clear, so
MFRC522_ToCard with PCD_AUTHENT can only return MI_OK or MI_ERR, never
MI_NOTAGERR; in particular an in-budget loop exit with clean monitored error
bits is classified as success even when only the timer bit fired. -/
theorem auth_transceive_never_no_tag (env : ChipEnv) :
    (MFRC522_ToCard PCD_AUTHENT env).status ≠ MI_NOTAGERR ∧
    ((MFRC522_ToCard PCD_AUTHENT env).status = MI_OK ∨
     (MFRC522_ToCard PCD_AUTHENT env).status = MI_ERR) ∧
    ((pollFrom env.irqTrace (waitIRqOf PCD_AUTHENT) 2000 0).1 ≠ 0 →
      env.errorReg % 256 &&& 0x1B = 0 →
      (MFRC522_ToCard PCD_AUTHENT env).status = MI_OK) := by
  have hso := statusOf_authent (pollFrom env.irqTrace (waitIRqOf PCD_AUTHENT) 2000 0).2
    (pollFrom_snd_lt env.irqTrace (waitIRqOf PCD_AUTHENT) 2000 0)
  by_cases h1 : (pollFrom env.irqTrace (waitIRqOf PCD_AUTHENT) 2000 0).1 ≠ 0
  · by_cases h2 : env.errorReg % 256 &&& 0x1B = 0
    · have h : (MFRC522_ToCard PCD_AUTHENT env).status = MI_OK := by
        unfold MFRC522_ToCard
        rw [if_pos h1, if_pos h2, if_neg (by decide : ¬(PCD_AUTHENT = PCD_TRANSCEIVE))]
        exact hso
      exact ⟨by rw [h]; decide, Or.inl h, fun _ _ => h⟩
    · have h : (MFRC522_ToCard PCD_AUTHENT env).status = MI_ERR := by
        unfold MFRC522_ToCard
        rw [if_pos h1, if_neg h2]
      exact ⟨by rw [h]; decide, Or.inr h, fun _ hh2 => absurd hh2 h2⟩
  · have h : (MFRC522_ToCard PCD_AUTHENT env).status = MI_ERR := by
      unfold MFRC522_ToCard
      rw [if_neg h1]
    exact ⟨by rw [h]; decide, Or.inr h, fun hh1 _ => absurd hh1 h1⟩

/-- Claim C9, witness: a timer-only poll exit with clean error bits on
PCD_AUTHENT is classified MI_OK, not MI_NOTAGERR. -/
theorem auth_transceive_never_no_tag_witness :
    (MFRC522_ToCard PCD_AUTHENT noTagEnv).status = MI_OK ∧
    (MFRC522_ToCard PCD_AUTHENT noTagEnv).status ≠ MI_NOTAGERR :=
  ⟨(auth_transceive_never_no_tag noTagEnv).2.2 (by decide) (by decide),
   (auth_transceive_never_no_tag noTagEnv).1⟩

/-- Claim C4: on a successful PCD_TRANSCEIVE transaction the reported bit count
equals (fifoLevel - 1) * 8 + lastBits modulo 65536 when lastBits is nonzero
(the plain formula whenever fifoLevel is at least 1) and fifoLevel * 8 when
lastBits is zero, and the number of drained bytes is fifoLevel clamped below by
1 and above by MFRC522_MAX_LEN. -/
theorem toCard_received_bit_count (env : ChipEnv)
    (h : (MFRC522_ToCard PCD_TRANSCEIVE env).status = MI_OK) :
    (MFRC522_ToCard PCD_TRANSCEIVE env).backLen = some (backLenOf env) ∧
    (env.controlReg % 256 &&& 0x07 ≠ 0 →
      (backLenOf env : Int) =
        ((((env.fifoLevel % 256 : Nat) : Int) - 1) * 8 +
          ((env.controlReg % 256 &&& 0x07 : Nat) : Int)) % 65536) ∧
    (env.controlReg % 256 &&& 0x07 ≠ 0 → 1 ≤ env.fifoLevel % 256 →
      backLenOf env = (env.fifoLevel % 256 - 1) * 8 + (env.controlReg % 256 &&& 0x07)) ∧
    (env.controlReg % 256 &&& 0x07 = 0 → backLenOf env = env.fifoLevel % 256 * 8) ∧
    (MFRC522_ToCard PCD_TRANSCEIVE env).backData.length =
      min (max (env.fifoLevel % 256) 1) MFRC522_MAX_LEN := by
  have heq := toCard_transceive_of_ok env (Or.inl h)
  have hl : env.fifoLevel % 256 < 256 := Nat.mod_lt _ (by omega)
  have hb := land_mask_byte_bound env.controlReg
  refine ⟨?_, ?_, ?_, ?_, ?_⟩
  · rw [heq]
    rfl
  · intro hlb
    unfold backLenOf
    rw [if_pos hlb]
    push_cast
    omega
  · intro hlb hge
    unfold backLenOf
    rw [if_pos hlb]
    omega
  · intro hlb
    unfold backLenOf
    rw [if_neg (by simp [hlb])]
  · rw [heq]
    show ((List.range (drainOf env)).map (fun j => env.fifoData j % 256)).length = _
    rw [List.length_map, List.length_range, drainOf_eq]

/-- Claim C4, witness: fifoLevel 3 with lastBits 5 reports 21 received bits and
drains 3 bytes. -/
theorem toCard_received_bit_count_witness :
    (MFRC522_ToCard PCD_TRANSCEIVE (okEnv 3 5 (fun _ => 0))).backLen = some 21 ∧
    (MFRC522_ToCard PCD_TRANSCEIVE (okEnv 3 5 (fun _ => 0))).backData.length = 3 := by
  have h := toCard_received_bit_count (okEnv 3 5 (fun _ => 0)) (by decide)
  constructor
  · rw [h.1, h.2.2.1 (by decide) (by decide)]
    decide
  · rw [h.2.2.2.2]
    decide

/-- Claim C6: the DIV_IRQ wait loop of MFRC522_CalculateCRC performs at most
255 reads, and the output is unconditionally the pair of the CRC result
registers, low byte in position 0 and high byte in position 1, with no error
indication even when the budget is exhausted. -/
theorem calculateCRC_order_and_bound (env : CrcEnv) :
    crcPollReads env.divIrqTrace 0xFF 0 ≤ 255 ∧
    MFRC522_CalculateCRC env = (env.crcResultL % 256, env.crcResultM % 256) := by
  have hle : ∀ i k, crcPollReads env.divIrqTrace (i + 1) k ≤ k + i + 1 := by
    intro i
    induction i with
    | zero =>
      intro k
      simp only [crcPollReads]
      rw [if_neg (by simp)]
    | succ m ih =>
      intro k
      by_cases hc : m + 1 ≠ 0 ∧ (env.divIrqTrace k % 256) &&& 0x04 = 0
      · have hstep : crcPollReads env.divIrqTrace (m + 1 + 1) k =
            crcPollReads env.divIrqTrace (m + 1) (k + 1) := by
          simp only [crcPollReads]
          rw [if_pos hc]
        rw [hstep]
        have := ih (k + 1)
        omega
      · have hstep : crcPollReads env.divIrqTrace (m + 1 + 1) k = k + 1 := by
          simp only [crcPollReads]
          rw [if_neg hc]
        rw [hstep]
        omega
  constructor
  · have h := hle 254 0
    simpa using h
  · rfl

/-- Claim C7: MFRC522_SelectTag returns the first received byte exactly when
the transceive status is MI_OK and exactly 0x18 bits were received, and 0 in
every other case, including a successful transceive with a different bit
count. -/
theorem selectTag_size (env : ChipEnv) :
    ((MFRC522_ToCard PCD_TRANSCEIVE env).status = MI_OK →
      (MFRC522_ToCard PCD_TRANSCEIVE env).backLen = some 0x18 →
      MFRC522_SelectTag env = env.fifoData 0 % 256) ∧
    ((MFRC522_ToCard PCD_TRANSCEIVE env).status ≠ MI_OK → MFRC522_SelectTag env = 0) ∧
    ((MFRC522_ToCard PCD_TRANSCEIVE env).backLen ≠ some 0x18 → MFRC522_SelectTag env = 0) := by
  refine ⟨?_, ?_, ?_⟩
  · intro hst hlen
    unfold MFRC522_SelectTag
    rw [if_pos ⟨hst, hlen⟩, toCard_transceive_of_ok env (Or.inl hst)]
    show ((List.range (drainOf env)).map (fun j => env.fifoData j % 256)).headD
      PICC_SElECTTAG = _
    exact headD_map_range _ _ _ (one_le_drainOf env)
  · intro hst
    unfold MFRC522_SelectTag
    rw [if_neg (by tauto)]
  · intro hlen
    unfold MFRC522_SelectTag
    rw [if_neg (by tauto)]

/-- Claim C7, witness: a successful transceive with 24 received bits returns
the first received byte 8 as the size code. -/
theorem selectTag_size_witness :
    MFRC522_SelectTag (okEnv 3 0 (fun _ => 8)) = 8 := by
  rw [(selectTag_size (okEnv 3 0 (fun _ => 8))).1 (by decide) (by decide)]
  decide

/-- Claim C8: MFRC522_Auth returns MI_OK exactly when the PCD_AUTHENT
transceive returned MI_OK and bit 3 of the STATUS2 read is set, and MI_ERR in
every other case. -/
theorem auth_success_iff (env : ChipEnv) (status2 : Nat) :
    MFRC522_Auth env status2 =
      (if (MFRC522_ToCard PCD_AUTHENT env).status = MI_OK ∧ (status2 % 256) &&& 0x08 ≠ 0
       then MI_OK else MI_ERR) := by
  unfold MFRC522_Auth
  by_cases h1 : (MFRC522_ToCard PCD_AUTHENT env).status = MI_OK <;>
    by_cases h2 : (status2 % 256) &&& 0x08 = 0
  · rw [if_pos (Or.inr h2), if_neg (by tauto)]
  · rw [if_neg (by tauto), if_pos ⟨h1, h2⟩]
    exact h1
  · rw [if_pos (Or.inl h1), if_neg (by tauto)]
  · rw [if_pos (Or.inl h1), if_neg (by tauto)]

/-- Claim C3, counterexample: a NoTag transceive outcome and a ChipError
transceive outcome are mapped to the same returned value by MFRC522_Read
(MI_ERR for both) and by MFRC522_SelectTag (0 for both), so the claim that no
operation collapses the two kinds is false. -/
theorem status_propagation_counterexample :
    (MFRC522_ToCard PCD_TRANSCEIVE noTagEnv).status = MI_NOTAGERR ∧
    (MFRC522_ToCard PCD_TRANSCEIVE chipErrEnv).status = MI_ERR ∧
    MFRC522_Read noTagEnv = MFRC522_Read chipErrEnv ∧
    MFRC522_SelectTag noTagEnv = MFRC522_SelectTag chipErrEnv := by decide

/-- Claim C3 (amended): MFRC522_Request and MFRC522_Anticoll propagate the
distinction, returning MI_NOTAGERR for a NoTag transceive outcome and MI_ERR
for a ChipError outcome; but MFRC522_Read returns MI_ERR and MFRC522_SelectTag
returns 0 for both outcomes, collapsing the two kinds. -/
theorem status_propagation_amended (envN envE : ChipEnv) (bufN bufE : Nat → Nat)
    (hN : (MFRC522_ToCard PCD_TRANSCEIVE envN).status = MI_NOTAGERR)
    (hE : (MFRC522_ToCard PCD_TRANSCEIVE envE).status = MI_ERR) :
    MFRC522_Request envN = MI_NOTAGERR ∧ MFRC522_Request envE = MI_ERR ∧
    (MFRC522_Anticoll envN bufN).1 = MI_NOTAGERR ∧ (MFRC522_Anticoll envE bufE).1 = MI_ERR ∧
    MFRC522_Read envN = MI_ERR ∧ MFRC522_Read envE = MI_ERR ∧
    MFRC522_SelectTag envN = 0 ∧ MFRC522_SelectTag envE = 0 := by
  have dN : MI_NOTAGERR ≠ MI_OK := by decide
  have dE : MI_ERR ≠ MI_OK := by decide
  refine ⟨?_, ?_, ?_, ?_, ?_, ?_, ?_, ?_⟩
  · unfold MFRC522_Request
    rw [if_pos (by rw [hN]; exact dN)]
    exact hN
  · unfold MFRC522_Request
    rw [if_pos (by rw [hE]; exact dE)]
    exact hE
  · unfold MFRC522_Anticoll
    rw [if_neg (by rw [hN]; exact dN)]
    exact hN
  · unfold MFRC522_Anticoll
    rw [if_neg (by rw [hE]; exact dE)]
    exact hE
  · unfold MFRC522_Read
    rw [if_pos (Or.inl (by rw [hN]; exact dN))]
  · unfold MFRC522_Read
    rw [if_pos (Or.inl (by rw [hE]; exact dE))]
  · unfold MFRC522_SelectTag
    rw [if_neg (fun hc => dN (hN ▸ hc.1))]
  · unfold MFRC522_SelectTag
    rw [if_neg (fun hc => dE (hE ▸ hc.1))]

/-- Claim C3 (amended), witness: the amended propagation statement at the two
concrete environments noTagEnv and chipErrEnv. -/
theorem status_propagation_amended_witness :
    MFRC522_Request noTagEnv = MI_NOTAGERR ∧ MFRC522_Request chipErrEnv = MI_ERR ∧
    (MFRC522_Anticoll noTagEnv (fun _ => 0)).1 = MI_NOTAGERR ∧
    (MFRC522_Anticoll chipErrEnv (fun _ => 0)).1 = MI_ERR ∧
    MFRC522_Read noTagEnv = MI_ERR ∧ MFRC522_Read chipErrEnv = MI_ERR ∧
    MFRC522_SelectTag noTagEnv = 0 ∧ MFRC522_SelectTag chipErrEnv = 0 :=
  status_propagation_amended noTagEnv chipErrEnv (fun _ => 0) (fun _ => 0)
    (by decide) (by decide)

/-- Transceive environment delivering a five byte anticollision reply whose
fifth byte 0x08 is the xor of the first four bytes 0x12, 0x34, 0x56, 0x78. -/
def uidEnv : ChipEnv := okEnv 5 0 (fun i =>
  if i = 0 then 0x12 else if i = 1 then 0x34 else if i = 2 then 0x56
  else if i = 3 then 0x78 else 8)

/-- Claim C5: when the transceive inside MFRC522_Anticoll returns MI_OK and at
least five bytes were drained, the operation returns MI_OK exactly when the
fifth received byte equals the xor of the first four; a mismatch yields MI_ERR
while the received bytes stay in the caller buffer untouched. -/
theorem anticoll_checksum (env : ChipEnv) (cb : Nat → Nat)
    (hok : (MFRC522_ToCard PCD_TRANSCEIVE env).status = MI_OK)
    (hlen : 5 ≤ (MFRC522_ToCard PCD_TRANSCEIVE env).backData.length) :
    ((MFRC522_Anticoll env cb).1 = MI_OK ↔
      ((MFRC522_ToCard PCD_TRANSCEIVE env).backData.getD 0 0 ^^^
       (MFRC522_ToCard PCD_TRANSCEIVE env).backData.getD 1 0 ^^^
       (MFRC522_ToCard PCD_TRANSCEIVE env).backData.getD 2 0 ^^^
       (MFRC522_ToCard PCD_TRANSCEIVE env).backData.getD 3 0) =
      (MFRC522_ToCard PCD_TRANSCEIVE env).backData.getD 4 0) ∧
    ((MFRC522_Anticoll env cb).1 = MI_OK ∨ (MFRC522_Anticoll env cb).1 = MI_ERR) ∧
    (∀ i, i < 5 → (MFRC522_Anticoll env cb).2 i =
      (MFRC522_ToCard PCD_TRANSCEIVE env).backData.getD i 0) := by
  have hbuf : ∀ i, i < 5 →
      anticollBuf env cb i = (MFRC522_ToCard PCD_TRANSCEIVE env).backData.getD i 0 := by
    intro i hi
    unfold anticollBuf
    rw [if_pos (lt_of_lt_of_le hi hlen)]
  have h1 : (MFRC522_Anticoll env cb).1 =
      if (anticollBuf env cb 0 ^^^ anticollBuf env cb 1 ^^^
          anticollBuf env cb 2 ^^^ anticollBuf env cb 3) = anticollBuf env cb 4
      then MI_OK else MI_ERR := by
    unfold MFRC522_Anticoll
    rw [if_pos hok]
  have h2 : (MFRC522_Anticoll env cb).2 = anticollBuf env cb := by
    unfold MFRC522_Anticoll
    rw [if_pos hok]
  refine ⟨?_, ?_, ?_⟩
  · rw [h1, hbuf 0 (by omega), hbuf 1 (by omega), hbuf 2 (by omega),
      hbuf 3 (by omega), hbuf 4 (by omega)]
    constructor
    · intro h
      by_contra hc
      rw [if_neg hc] at h
      exact absurd h (by decide)
    · intro h
      rw [if_pos h]
  · rw [h1]
    split
    · exact Or.inl rfl
    · exact Or.inr rfl
  · intro i hi
    rw [h2, hbuf i hi]

/-- Claim C5, witness: the checksum property at the concrete environment
uidEnv, whose reply passes the xor check. -/
theorem anticoll_checksum_witness :
    ((MFRC522_Anticoll uidEnv (fun _ => 0)).1 = MI_OK ↔
      ((MFRC522_ToCard PCD_TRANSCEIVE uidEnv).backData.getD 0 0 ^^^
       (MFRC522_ToCard PCD_TRANSCEIVE uidEnv).backData.getD 1 0 ^^^
       (MFRC522_ToCard PCD_TRANSCEIVE uidEnv).backData.getD 2 0 ^^^
       (MFRC522_ToCard PCD_TRANSCEIVE uidEnv).backData.getD 3 0) =
      (MFRC522_ToCard PCD_TRANSCEIVE uidEnv).backData.getD 4 0) ∧
    ((MFRC522_Anticoll uidEnv (fun _ => 0)).1 = MI_OK ∨
     (MFRC522_Anticoll uidEnv (fun _ => 0)).1 = MI_ERR) ∧
    (∀ i, i < 5 → (MFRC522_Anticoll uidEnv (fun _ => 0)).2 i =
      (MFRC522_ToCard PCD_TRANSCEIVE uidEnv).backData.getD i 0) :=
  anticoll_checksum uidEnv (fun _ => 0) (by decide) (by decide)

/-- Claim C2, counterexample: block address 7 is protected (7 mod 4 = 3) and
MFRC522_Debug_Write rejects it with local error -1 without invoking
MFRC522_Write, but the transceive trace at the moment of rejection is not
empty: the authenticate transceive has already been issued, so a bus
transaction does happen before the rejection. -/
theorem protected_block_counterexample :
    (7 : Nat) % 4 = 3 ∧
    MFRC522_Debug_Write authOkEnv 0x08 7 0 0 noTagEnv noTagEnv = (-1, [PCD_AUTHENT]) ∧
    (MFRC522_Debug_Write authOkEnv 0x08 7 0 0 noTagEnv noTagEnv).2 ≠ [] := by decide

/-- Claim C2 (amended): a write or clean on a protected block address (0, or 3
mod 4) returns the local error -1 and never reaches MFRC522_Write, so no write
transceive is issued; but the transceive trace is [PCD_AUTHENT], not empty:
the authenticate transaction precedes the protection check, which lives in the
debug wrappers rather than in MFRC522_Write itself. -/
theorem protected_block_amended (envA : ChipEnv) (s2 addr g w0 : Nat) (e1 e2 : ChipEnv)
    (h : addr = 0 ∨ addr % 4 = 3) :
    MFRC522_Debug_Write envA s2 addr g w0 e1 e2 = (-1, [PCD_AUTHENT]) ∧
    MFRC522_Debug_Clean envA s2 addr g e1 e2 = (-1, [PCD_AUTHENT]) := by
  constructor
  · unfold MFRC522_Debug_Write
    by_cases hA : MFRC522_Auth envA s2 = MI_OK
    · rw [if_pos hA, if_pos h]
    · rw [if_neg hA]
  · unfold MFRC522_Debug_Clean
    by_cases hA : MFRC522_Auth envA s2 = MI_OK
    · rw [if_pos hA, if_pos h]
    · rw [if_neg hA]

/-- Claim C2 (amended), witness: the protected address 11 after a successful
authentication. -/
theorem protected_block_amended_witness :
    MFRC522_Debug_Write authOkEnv 8 11 0 0 noTagEnv noTagEnv = (-1, [PCD_AUTHENT]) ∧
    MFRC522_Debug_Clean authOkEnv 8 11 0 noTagEnv noTagEnv = (-1, [PCD_AUTHENT]) :=
  protected_block_amended authOkEnv 8 11 0 0 noTagEnv noTagEnv (Or.inr (by norm_num))

/-- Claim C10: on wAckFailEnv the first write phase fails its ack check (the
reply nibble is 0, not 0x0A) with a 4 bit reply, and the error path of
MFRC522_Write returns that nibble as the status, which equals MI_OK, so the
caller observes success for a failed write; the trace shows phase two was
never attempted. -/
theorem write_failure_returns_ok :
    ((MFRC522_ToCard PCD_TRANSCEIVE wAckFailEnv).backData.headD PICC_WRITE) &&& 0x0F ≠ 0x0A ∧
    (MFRC522_ToCard PCD_TRANSCEIVE wAckFailEnv).backLen = some 4 ∧
    MFRC522_Write 0 0 wAckFailEnv wAckFailEnv = (MI_OK, [PCD_TRANSCEIVE]) := by decide
